import Mathlib

/-!
# Software-PWM Python binding (`py_softpwm.c`)

A shallow embedding of the five entry points of `src/source/py_softpwm.c`
(`py_cleanup`, `py_start_channel`, `py_stop_channel`, `py_set_duty_cycle`,
`py_set_frequency`) together with theorems about their argument validation,
error reporting and driver calls.

The driver behind the binding (`get_key` of `common.h`, and `softpwm_start`,
`softpwm_disable`, `softpwm_set_duty_cycle`, `pwm_set_frequency`,
`softpwm_cleanup` of `c_softpwm.h`) is not part of the source file; it is a
parameter (`Driver`) of every definition.  Every driver call is logged in the
`World`, so that "the driver is (not) invoked" is a statement about the log;
`get_key` is a lookup without effect and is not logged.

The entry points are modelled from the point where the argument parser has
run: its outcome (failure, or the values stored in the C variables) is the
input.  The method table and the module initialisation are not modelled.
-/

namespace SoftPwm

/-! ## C `float` values -/

/-- The value of a C `float`: a NaN, an infinity, or a finite number.  Finite
values are arbitrary rationals, which covers every finite binary32 (and every
finite `double`) value exactly. -/
inductive CFloat where
  | nan
  | ninf
  | pinf
  | fin (q : ℚ)
deriving DecidableEq

namespace CFloat

/-- The C comparison `a < b` (IEEE 754: false as soon as one side is a NaN). -/
def lt : CFloat → CFloat → Bool
  | fin a, fin b => decide (a < b)
  | ninf, fin _ => true
  | ninf, pinf => true
  | fin _, pinf => true
  | _, _ => false

/-- The C comparison `a <= b` (IEEE 754: false as soon as one side is a NaN). -/
def le : CFloat → CFloat → Bool
  | fin a, fin b => decide (a ≤ b)
  | ninf, ninf => true
  | ninf, fin _ => true
  | ninf, pinf => true
  | fin _, pinf => true
  | pinf, pinf => true
  | _, _ => false

/-- The C comparison `a > b`. -/
def gt (a b : CFloat) : Bool := lt b a

/-- Whether the value is a NaN. -/
def isNaN : CFloat → Bool
  | nan => true
  | _ => false

end CFloat

/-- The literal `0.0`. -/
def c0 : CFloat := .fin 0
/-- The literal `1.0` (initialiser of `frequency` in `py_set_frequency`). -/
def c1 : CFloat := .fin 1
/-- The literal `100.0`. -/
def c100 : CFloat := .fin 100
/-- The literal `2000.0` (initialiser of `frequency` in `py_start_channel`). -/
def c2000 : CFloat := .fin 2000
/-- The literal `10000.0`. -/
def c10000 : CFloat := .fin 10000

/-! ## Python results -/

/-- The exception classes the binding raises itself. -/
inductive PyExc where
  | ValueError
  | RuntimeError
deriving DecidableEq

/-- What an entry point hands back to the interpreter. -/
inductive PyResult where
  /-- The result of `Py_RETURN_NONE`. -/
  | none
  /-- The result of `PyErr_SetString(exc, msg); return NULL;`. -/
  | raised (exc : PyExc) (msg : String)
  /-- A bare `return NULL;`: the binding sets no exception of its own (the
  argument parser or the driver is responsible for it). -/
  | null
deriving DecidableEq

/-- The message of the failed `get_key` branch (all four operations). -/
def msg_key : String := "Invalid PWM key or name."
/-- The message of the duty-cycle range check (start, set_duty_cycle). -/
def msg_duty : String := "duty_cycle must have a value from 0.0 to 100.0"
/-- The message of the frequency check of `py_start_channel`. -/
def msg_freq_start : String := "frequency must be greater than 0.0"
/-- The message of the polarity check of `py_start_channel`. -/
def msg_polarity : String := "polarity must be either 0 or 1"
/-- The message of the frequency check of `py_set_frequency`. -/
def msg_freq_set : String := "frequency must be greater than 0.0 and less than 10000.0"
/-- The message raised when the driver reports `-1` on a reconfiguration. -/
def msg_not_started : String := "You must start() the PWM channel first"

/-! ## The driver and the world -/

/-- The canonical key that `get_key` writes into `char key[8]`. -/
abbrev Key := String

/-- One call into the driver, with its actual arguments. -/
inductive Call where
  | softpwm_start (key : Key) (duty_cycle frequency : CFloat) (polarity : Int)
  | softpwm_disable (key : Key)
  | softpwm_set_duty_cycle (key : Key) (duty_cycle : CFloat)
  | pwm_set_frequency (key : Key) (frequency : CFloat)
  | softpwm_cleanup
deriving DecidableEq

/-- The functions the binding calls but does not define.  `σ` is the state of
the driver; `get_key` is a lookup (`none` stands for the return value `0`,
`some key` for a non-zero return value with `key` written to the buffer). -/
structure Driver (σ : Type) where
  get_key : String → Option Key
  softpwm_start : Key → CFloat → CFloat → Int → σ → Int × σ
  softpwm_disable : Key → σ → σ
  softpwm_set_duty_cycle : Key → CFloat → σ → Int × σ
  pwm_set_frequency : Key → CFloat → σ → Int × σ
  softpwm_cleanup : σ → σ

/-- The driver state together with the log of driver calls, oldest first. -/
structure World (σ : Type) where
  st : σ
  calls : List Call

/-! ## Parsed arguments

`PyArg_ParseTuple` / `PyArg_ParseTupleAndKeywords` either fail (the entry
point then returns `NULL` at once) or fill the C variables.  A field that is
`none` is an optional argument (after `|` in the format string) the caller
omitted: the C variable then keeps its initialiser. -/

/-- The arguments of `start`, format `"s|ffi"`. -/
structure StartArgs where
  channel : String
  duty_cycle : Option CFloat
  frequency : Option CFloat
  polarity : Option Int

/-- The arguments of `set_duty_cycle`, format `"s|f"`. -/
structure DutyArgs where
  channel : String
  duty_cycle : Option CFloat

/-- The arguments of `set_frequency`, format `"s|f"`. -/
structure FreqArgs where
  channel : String
  frequency : Option CFloat

/-! ## The entry points -/

variable {σ : Type}

/-- The function `py_cleanup`: the arguments are ignored. -/
def py_cleanup {α : Type} (D : Driver σ) (_args : α) (w : World σ) : PyResult × World σ :=
  (.none, ⟨D.softpwm_cleanup w.st, w.calls ++ [.softpwm_cleanup]⟩)

/-- The function `py_start_channel`; `parsed = none` is a failed
`PyArg_ParseTupleAndKeywords`. -/
def py_start_channel (D : Driver σ) (parsed : Option StartArgs) (w : World σ) :
    PyResult × World σ :=
  match parsed with
  | Option.none => (.null, w)
  | some a =>
    let frequency := a.frequency.getD c2000
    let duty_cycle := a.duty_cycle.getD c0
    let polarity := a.polarity.getD 0
    match D.get_key a.channel with
    | Option.none => (.raised .ValueError msg_key, w)
    | some key =>
      if duty_cycle.lt c0 || duty_cycle.gt c100 then
        (.raised .ValueError msg_duty, w)
      else if frequency.le c0 then
        (.raised .ValueError msg_freq_start, w)
      else if polarity < 0 || polarity > 1 then
        (.raised .ValueError msg_polarity, w)
      else
        let r := D.softpwm_start key duty_cycle frequency polarity w.st
        let w' : World σ := ⟨r.2, w.calls ++ [.softpwm_start key duty_cycle frequency polarity]⟩
        if r.1 = 0 then (.null, w') else (.none, w')

/-- The function `py_stop_channel`; `parsed = none` is a failed
`PyArg_ParseTuple`. -/
def py_stop_channel (D : Driver σ) (parsed : Option String) (w : World σ) :
    PyResult × World σ :=
  match parsed with
  | Option.none => (.null, w)
  | some channel =>
    match D.get_key channel with
    | Option.none => (.raised .ValueError msg_key, w)
    | some key =>
      (.none, ⟨D.softpwm_disable key w.st, w.calls ++ [.softpwm_disable key]⟩)

/-- The function `py_set_duty_cycle`. -/
def py_set_duty_cycle (D : Driver σ) (parsed : Option DutyArgs) (w : World σ) :
    PyResult × World σ :=
  match parsed with
  | Option.none => (.null, w)
  | some a =>
    let duty_cycle := a.duty_cycle.getD c0
    if duty_cycle.lt c0 || duty_cycle.gt c100 then
      (.raised .ValueError msg_duty, w)
    else
      match D.get_key a.channel with
      | Option.none => (.raised .ValueError msg_key, w)
      | some key =>
        let r := D.softpwm_set_duty_cycle key duty_cycle w.st
        let w' : World σ := ⟨r.2, w.calls ++ [.softpwm_set_duty_cycle key duty_cycle]⟩
        if r.1 = -1 then (.raised .RuntimeError msg_not_started, w') else (.none, w')

/-- The function `py_set_frequency`. -/
def py_set_frequency (D : Driver σ) (parsed : Option FreqArgs) (w : World σ) :
    PyResult × World σ :=
  match parsed with
  | Option.none => (.null, w)
  | some a =>
    let frequency := a.frequency.getD c1
    if frequency.le c0 || frequency.gt c10000 then
      (.raised .ValueError msg_freq_set, w)
    else
      match D.get_key a.channel with
      | Option.none => (.raised .ValueError msg_key, w)
      | some key =>
        let r := D.pwm_set_frequency key frequency w.st
        let w' : World σ := ⟨r.2, w.calls ++ [.pwm_set_frequency key frequency]⟩
        if r.1 = -1 then (.raised .RuntimeError msg_not_started, w') else (.none, w')

/-! ## A concrete driver -/

/-- Modelled from the spec: a small stand-in for the driver sources that are not
part of `py_softpwm.c`, used to run the entry points on concrete inputs.  Its
state is the list of running channels; the names "XIO-P0" and "U14_13" resolve
to the key "XIO-P0" and no other name resolves; a reconfiguration of a channel
that is not running reports `-1` ("fails with `NotStarted` if no active state");
stopping a channel that is not running changes nothing. -/
def refDriver : Driver (List Key) where
  get_key := fun name =>
    if name = "XIO-P0" ∨ name = "U14_13" then some "XIO-P0" else Option.none
  softpwm_start := fun key _ _ _ st => (1, if key ∈ st then st else key :: st)
  softpwm_disable := fun key st => st.filter (fun k => k ≠ key)
  softpwm_set_duty_cycle := fun key _ st => (if key ∈ st then 0 else -1, st)
  pwm_set_frequency := fun key _ st => (if key ∈ st then 0 else -1, st)
  softpwm_cleanup := fun _ => []

/-- The world before any call: no channel is running, nothing is logged. -/
def w0 : World (List Key) := ⟨[], []⟩

/-! ## The ranges the error messages state -/

/-- The range the text of `msg_duty` states: "a value from 0.0 to 100.0". -/
def stated_duty_range (d : CFloat) : Bool := c0.le d && d.le c100

/-- The range the text of `msg_freq_start` states: "greater than 0.0". -/
def stated_start_frequency_range (f : CFloat) : Bool := f.gt c0

/-- The range the text of `msg_freq_set` states: "greater than 0.0 and less
than 10000.0". -/
def stated_set_frequency_range (f : CFloat) : Bool := f.gt c0 && f.lt c10000

/-! ## The errors of each operation -/

/-- The (exception, message) pairs `py_start_channel` can raise, in the order
of its checks. -/
def start_errors : List (PyExc × String) :=
  [(.ValueError, msg_key), (.ValueError, msg_duty), (.ValueError, msg_freq_start),
   (.ValueError, msg_polarity)]

/-- The (exception, message) pairs `py_stop_channel` can raise. -/
def stop_errors : List (PyExc × String) :=
  [(.ValueError, msg_key)]

/-- The (exception, message) pairs `py_set_duty_cycle` can raise, in the order
of its checks. -/
def set_duty_cycle_errors : List (PyExc × String) :=
  [(.ValueError, msg_duty), (.ValueError, msg_key), (.RuntimeError, msg_not_started)]

/-- The (exception, message) pairs `py_set_frequency` can raise, in the order
of its checks. -/
def set_frequency_errors : List (PyExc × String) :=
  [(.ValueError, msg_freq_set), (.ValueError, msg_key), (.RuntimeError, msg_not_started)]

/-! ## Comparisons -/

theorem CFloat.range_check_duty (d : CFloat) :
    (d.lt c0 || d.gt c100) = false ↔ d.isNaN = true ∨ (c0.le d = true ∧ d.le c100 = true) := by
  cases d <;> simp [CFloat.lt, CFloat.le, CFloat.gt, CFloat.isNaN, c0, c100]

theorem CFloat.range_check_start_frequency (f : CFloat) :
    f.le c0 = false ↔ f.isNaN = true ∨ f.gt c0 = true := by
  cases f <;> simp [CFloat.lt, CFloat.le, CFloat.gt, CFloat.isNaN, c0]

theorem CFloat.range_check_set_frequency (f : CFloat) :
    (f.le c0 || f.gt c10000) = false ↔
      f.isNaN = true ∨ (f.gt c0 = true ∧ f.le c10000 = true) := by
  cases f <;> simp [CFloat.lt, CFloat.le, CFloat.gt, CFloat.isNaN, c0, c10000]

/-! ## What each entry point does, check by check -/

section Characterisation

variable {σ : Type} (D : Driver σ) (w : World σ)

/-- A failed argument parse returns `NULL` and leaves the world alone (all four
entry points that parse arguments). -/
theorem parse_failure_returns_null :
    py_start_channel D Option.none w = (.null, w) ∧
    py_stop_channel D Option.none w = (.null, w) ∧
    py_set_duty_cycle D Option.none w = (.null, w) ∧
    py_set_frequency D Option.none w = (.null, w) :=
  ⟨rfl, rfl, rfl, rfl⟩

/-- The function `py_start_channel` on a name that does not resolve. -/
theorem py_start_channel_unresolved (a : StartArgs) (hk : D.get_key a.channel = Option.none) :
    py_start_channel D (some a) w = (.raised .ValueError msg_key, w) := by
  simp [py_start_channel, hk]

/-- The function `py_start_channel` when the duty-cycle check fires. -/
theorem py_start_channel_bad_duty (a : StartArgs) (key : Key)
    (hk : D.get_key a.channel = some key)
    (hd : ((a.duty_cycle.getD c0).lt c0 || (a.duty_cycle.getD c0).gt c100) = true) :
    py_start_channel D (some a) w = (.raised .ValueError msg_duty, w) := by
  simp only [py_start_channel, hk, hd, if_true]

/-- The function `py_start_channel` when the frequency check fires. -/
theorem py_start_channel_bad_frequency (a : StartArgs) (key : Key)
    (hk : D.get_key a.channel = some key)
    (hd : ((a.duty_cycle.getD c0).lt c0 || (a.duty_cycle.getD c0).gt c100) = false)
    (hf : (a.frequency.getD c2000).le c0 = true) :
    py_start_channel D (some a) w = (.raised .ValueError msg_freq_start, w) := by
  simp [py_start_channel, hk, hd, hf]

/-- The function `py_start_channel` when the polarity check fires. -/
theorem py_start_channel_bad_polarity (a : StartArgs) (key : Key)
    (hk : D.get_key a.channel = some key)
    (hd : ((a.duty_cycle.getD c0).lt c0 || (a.duty_cycle.getD c0).gt c100) = false)
    (hf : (a.frequency.getD c2000).le c0 = false)
    (hp : a.polarity.getD 0 < 0 ∨ a.polarity.getD 0 > 1) :
    py_start_channel D (some a) w = (.raised .ValueError msg_polarity, w) := by
  simp [py_start_channel, hk, hd, hf, hp]

/-- The function `py_start_channel` when every check passes: one call of
`softpwm_start` with the key and the three values, and the result follows the
driver's return value. -/
theorem py_start_channel_forwards (a : StartArgs) (key : Key)
    (hk : D.get_key a.channel = some key)
    (hd : ((a.duty_cycle.getD c0).lt c0 || (a.duty_cycle.getD c0).gt c100) = false)
    (hf : (a.frequency.getD c2000).le c0 = false)
    (hp : a.polarity.getD 0 = 0 ∨ a.polarity.getD 0 = 1) :
    py_start_channel D (some a) w =
      (if (D.softpwm_start key (a.duty_cycle.getD c0) (a.frequency.getD c2000)
            (a.polarity.getD 0) w.st).1 = 0 then PyResult.null else PyResult.none,
       ⟨(D.softpwm_start key (a.duty_cycle.getD c0) (a.frequency.getD c2000)
            (a.polarity.getD 0) w.st).2,
        w.calls ++ [.softpwm_start key (a.duty_cycle.getD c0) (a.frequency.getD c2000)
            (a.polarity.getD 0)]⟩) := by
  have hp' : ¬ (a.polarity.getD 0 < 0 ∨ a.polarity.getD 0 > 1) := by omega
  simp only [py_start_channel, hk, hd, hf, hp', Bool.false_eq_true, if_false,
    Bool.or_eq_true, decide_eq_true_eq]
  split <;> rfl

/-- The function `py_set_duty_cycle` when the range check fires. -/
theorem py_set_duty_cycle_bad_duty (a : DutyArgs)
    (hd : ((a.duty_cycle.getD c0).lt c0 || (a.duty_cycle.getD c0).gt c100) = true) :
    py_set_duty_cycle D (some a) w = (.raised .ValueError msg_duty, w) := by
  simp only [py_set_duty_cycle, hd, if_true]

/-- The function `py_set_duty_cycle` on a name that does not resolve. -/
theorem py_set_duty_cycle_unresolved (a : DutyArgs)
    (hd : ((a.duty_cycle.getD c0).lt c0 || (a.duty_cycle.getD c0).gt c100) = false)
    (hk : D.get_key a.channel = Option.none) :
    py_set_duty_cycle D (some a) w = (.raised .ValueError msg_key, w) := by
  simp [py_set_duty_cycle, hd, hk]

/-- The function `py_set_duty_cycle` when both checks pass. -/
theorem py_set_duty_cycle_forwards (a : DutyArgs) (key : Key)
    (hd : ((a.duty_cycle.getD c0).lt c0 || (a.duty_cycle.getD c0).gt c100) = false)
    (hk : D.get_key a.channel = some key) :
    py_set_duty_cycle D (some a) w =
      (if (D.softpwm_set_duty_cycle key (a.duty_cycle.getD c0) w.st).1 = -1
        then PyResult.raised .RuntimeError msg_not_started else PyResult.none,
       ⟨(D.softpwm_set_duty_cycle key (a.duty_cycle.getD c0) w.st).2,
        w.calls ++ [.softpwm_set_duty_cycle key (a.duty_cycle.getD c0)]⟩) := by
  simp only [py_set_duty_cycle, hd, hk, Bool.false_eq_true, if_false]
  split <;> rfl

/-- The function `py_set_frequency` when the range check fires. -/
theorem py_set_frequency_bad_frequency (a : FreqArgs)
    (hf : ((a.frequency.getD c1).le c0 || (a.frequency.getD c1).gt c10000) = true) :
    py_set_frequency D (some a) w = (.raised .ValueError msg_freq_set, w) := by
  simp only [py_set_frequency, hf, if_true]

/-- The function `py_set_frequency` on a name that does not resolve. -/
theorem py_set_frequency_unresolved (a : FreqArgs)
    (hf : ((a.frequency.getD c1).le c0 || (a.frequency.getD c1).gt c10000) = false)
    (hk : D.get_key a.channel = Option.none) :
    py_set_frequency D (some a) w = (.raised .ValueError msg_key, w) := by
  simp [py_set_frequency, hf, hk]

/-- The function `py_set_frequency` when both checks pass. -/
theorem py_set_frequency_forwards (a : FreqArgs) (key : Key)
    (hf : ((a.frequency.getD c1).le c0 || (a.frequency.getD c1).gt c10000) = false)
    (hk : D.get_key a.channel = some key) :
    py_set_frequency D (some a) w =
      (if (D.pwm_set_frequency key (a.frequency.getD c1) w.st).1 = -1
        then PyResult.raised .RuntimeError msg_not_started else PyResult.none,
       ⟨(D.pwm_set_frequency key (a.frequency.getD c1) w.st).2,
        w.calls ++ [.pwm_set_frequency key (a.frequency.getD c1)]⟩) := by
  simp only [py_set_frequency, hf, hk, Bool.false_eq_true, if_false]
  split <;> rfl

end Characterisation

/-! ## Start: validation before the driver call -/

section Start

variable {σ : Type} (D : Driver σ) (w : World σ)

/-- For a duty cycle and a frequency that are not NaN, `py_start_channel` is
fail-closed: it calls `softpwm_start` exactly when the name resolves,
`0.0 <= duty_cycle <= 100.0`, `frequency > 0.0` and `polarity` is 0 or 1;
then it makes exactly that one call, with the resolved key and the unchanged
values, and returns `None` exactly when the driver returns non-zero; in every
other case it raises a `ValueError` and the world is untouched. -/
theorem start_fail_closed_of_not_nan (ch : String) (d f : CFloat) (p : Int)
    (hdn : d.isNaN = false) (hfn : f.isNaN = false) :
    ((∃ key, D.get_key ch = some key ∧
        (py_start_channel D (some ⟨ch, some d, some f, some p⟩) w).2.calls =
          w.calls ++ [.softpwm_start key d f p] ∧
        (py_start_channel D (some ⟨ch, some d, some f, some p⟩) w).2.st =
          (D.softpwm_start key d f p w.st).2 ∧
        ((py_start_channel D (some ⟨ch, some d, some f, some p⟩) w).1 = PyResult.none ↔
          (D.softpwm_start key d f p w.st).1 ≠ 0)) ↔
      ((∃ key, D.get_key ch = some key) ∧ c0.le d = true ∧ d.le c100 = true ∧
        f.gt c0 = true ∧ (p = 0 ∨ p = 1))) ∧
    (¬ ((∃ key, D.get_key ch = some key) ∧ c0.le d = true ∧ d.le c100 = true ∧
        f.gt c0 = true ∧ (p = 0 ∨ p = 1)) →
      (∃ msg, (py_start_channel D (some ⟨ch, some d, some f, some p⟩) w).1 =
          .raised .ValueError msg) ∧
        (py_start_channel D (some ⟨ch, some d, some f, some p⟩) w).2 = w) := by
  have hD := CFloat.range_check_duty d
  have hF := CFloat.range_check_start_frequency f
  rw [hdn] at hD
  rw [hfn] at hF
  simp only [Bool.false_eq_true, false_or] at hD hF
  cases hk : D.get_key ch with
  | none =>
    have h := py_start_channel_unresolved D w ⟨ch, some d, some f, some p⟩ hk
    simp [h]
  | some key =>
    by_cases hd : (d.lt c0 || d.gt c100) = true
    · have h := py_start_channel_bad_duty D w ⟨ch, some d, some f, some p⟩ key hk hd
      have hnd : ¬ (c0.le d = true ∧ d.le c100 = true) := fun hc => by
        rw [hD.mpr hc] at hd; exact Bool.false_ne_true hd
      constructor
      · constructor
        · rintro ⟨k, -, hc, -⟩
          rw [h] at hc
          simp at hc
        · rintro ⟨-, h1, h2, -⟩
          exact absurd ⟨h1, h2⟩ hnd
      · intro _
        exact ⟨⟨msg_duty, by rw [h]⟩, by rw [h]⟩
    · have hd' : (d.lt c0 || d.gt c100) = false := by simpa using hd
      by_cases hf : f.le c0 = true
      · have h := py_start_channel_bad_frequency D w ⟨ch, some d, some f, some p⟩ key hk hd' hf
        have hnf : ¬ f.gt c0 = true := fun hc => by
          rw [hF.mpr hc] at hf; exact Bool.false_ne_true hf
        constructor
        · constructor
          · rintro ⟨k, -, hc, -⟩
            rw [h] at hc
            simp at hc
          · rintro ⟨-, -, -, h3, -⟩
            exact absurd h3 hnf
        · intro _
          exact ⟨⟨msg_freq_start, by rw [h]⟩, by rw [h]⟩
      · have hf' : f.le c0 = false := by simpa using hf
        by_cases hp : p = 0 ∨ p = 1
        · have h := py_start_channel_forwards D w ⟨ch, some d, some f, some p⟩ key hk hd' hf' hp
          simp only [Option.getD_some] at h
          constructor
          · constructor
            · intro _
              exact ⟨⟨key, rfl⟩, (hD.mp hd').1, (hD.mp hd').2, hF.mp hf', hp⟩
            · intro _
              refine ⟨key, rfl, by rw [h], by rw [h], ?_⟩
              rw [h]
              by_cases hr : (D.softpwm_start key d f p w.st).1 = 0 <;> simp [hr]
          · intro hn
            exact absurd ⟨⟨key, rfl⟩, (hD.mp hd').1, (hD.mp hd').2, hF.mp hf', hp⟩ hn
        · have hp' : p < 0 ∨ p > 1 := by omega
          have h := py_start_channel_bad_polarity D w ⟨ch, some d, some f, some p⟩ key hk
            hd' hf' hp'
          constructor
          · constructor
            · rintro ⟨k, -, hc, -⟩
              rw [h] at hc
              simp at hc
            · rintro ⟨-, -, -, -, h4⟩
              exact absurd h4 hp
          · intro _
            exact ⟨⟨msg_polarity, by rw [h]⟩, by rw [h]⟩

end Start

/-! ## NaN arguments -/

section NaN

variable {σ : Type} (D : Driver σ) (w : World σ)

/-- C1, on the code: a NaN duty cycle, or a NaN frequency, is not stopped by
`py_start_channel`.  On a resolvable name the call `start(ch, nan)` invokes
`softpwm_start` with the NaN and raises no error, although
`0.0 <= nan <= 100.0` is false; `start(ch, 0.0, nan)` does the same, although
`nan > 0.0` is false. -/
theorem start_nan_reaches_driver (ch : String) (key : Key)
    (hk : D.get_key ch = some key) :
    ((py_start_channel D (some ⟨ch, some .nan, Option.none, Option.none⟩) w).2.calls =
        w.calls ++ [.softpwm_start key .nan c2000 0] ∧
      (∀ e msg, (py_start_channel D (some ⟨ch, some .nan, Option.none, Option.none⟩) w).1 ≠
        .raised e msg) ∧
      ¬ (c0.le .nan = true ∧ CFloat.le .nan c100 = true)) ∧
    ((py_start_channel D (some ⟨ch, some c0, some .nan, Option.none⟩) w).2.calls =
        w.calls ++ [.softpwm_start key c0 .nan 0] ∧
      (∀ e msg, (py_start_channel D (some ⟨ch, some c0, some .nan, Option.none⟩) w).1 ≠
        .raised e msg) ∧
      ¬ (CFloat.gt .nan c0 = true)) := by
  have h1 := py_start_channel_forwards D w ⟨ch, some .nan, Option.none, Option.none⟩ key hk
    rfl rfl (Or.inl rfl)
  have h2 := py_start_channel_forwards D w ⟨ch, some c0, some .nan, Option.none⟩ key hk
    (by simp [c0, c100, CFloat.lt, CFloat.gt]) rfl (Or.inl rfl)
  simp only [Option.getD_some, Option.getD_none] at h1 h2
  refine ⟨⟨by rw [h1], ?_, by simp [CFloat.le]⟩, ⟨by rw [h2], ?_, by simp [CFloat.gt, CFloat.lt]⟩⟩
  · intro e msg
    rw [h1]
    by_cases hr : (D.softpwm_start key .nan c2000 0 w.st).1 = 0 <;> simp [hr]
  · intro e msg
    rw [h2]
    by_cases hr : (D.softpwm_start key c0 .nan 0 w.st).1 = 0 <;> simp [hr]

/-- C2, on the code: a NaN frequency is not stopped by `py_set_frequency`.  On
a resolvable name the call `set_frequency(ch, nan)` invokes
`pwm_set_frequency` with the NaN and raises no `ValueError`, although
`0.0 < nan <= 10000.0` is false. -/
theorem set_frequency_nan_reaches_driver (ch : String) (key : Key)
    (hk : D.get_key ch = some key) :
    (py_set_frequency D (some ⟨ch, some .nan⟩) w).2.calls =
        w.calls ++ [.pwm_set_frequency key .nan] ∧
      (∀ msg, (py_set_frequency D (some ⟨ch, some .nan⟩) w).1 ≠ .raised .ValueError msg) ∧
      ¬ (CFloat.gt .nan c0 = true ∧ CFloat.le .nan c10000 = true) := by
  have h := py_set_frequency_forwards D w ⟨ch, some .nan⟩ key rfl hk
  simp only [Option.getD_some] at h
  refine ⟨by rw [h], ?_, by simp [CFloat.le]⟩
  intro msg
  rw [h]
  by_cases hr : (D.pwm_set_frequency key .nan w.st).1 = -1 <;> simp [hr]

/-- C5, on the code: the values forwarded to the driver need not satisfy the
data-model invariants.  With a NaN argument on a resolvable name,
`softpwm_start` receives a duty cycle `d` for which `0.0 <= d <= 100.0` fails,
`softpwm_start` receives a frequency `f` for which `f > 0.0` fails,
`softpwm_set_duty_cycle` receives a duty cycle outside `0.0 .. 100.0`, and
`pwm_set_frequency` receives a frequency for which `0.0 < f <= 10000.0`
fails. -/
theorem forwarded_nan_breaks_invariants (ch : String) (key : Key)
    (hk : D.get_key ch = some key) :
    ((py_start_channel D (some ⟨ch, some .nan, some c2000, some 0⟩) w).2.calls =
        w.calls ++ [.softpwm_start key .nan c2000 0] ∧
      ¬ (c0.le .nan = true ∧ CFloat.le .nan c100 = true)) ∧
    ((py_start_channel D (some ⟨ch, some c100, some .nan, some 1⟩) w).2.calls =
        w.calls ++ [.softpwm_start key c100 .nan 1] ∧
      ¬ (CFloat.gt .nan c0 = true)) ∧
    ((py_set_duty_cycle D (some ⟨ch, some .nan⟩) w).2.calls =
        w.calls ++ [.softpwm_set_duty_cycle key .nan] ∧
      ¬ (c0.le .nan = true ∧ CFloat.le .nan c100 = true)) ∧
    ((py_set_frequency D (some ⟨ch, some .nan⟩) w).2.calls =
        w.calls ++ [.pwm_set_frequency key .nan] ∧
      ¬ (CFloat.gt .nan c0 = true ∧ CFloat.le .nan c10000 = true)) := by
  have h1 := py_start_channel_forwards D w ⟨ch, some .nan, some c2000, some 0⟩ key hk
    rfl (by simp [c0, c2000, CFloat.le]) (Or.inl rfl)
  have h2 := py_start_channel_forwards D w ⟨ch, some c100, some .nan, some 1⟩ key hk
    (by simp [c0, c100, CFloat.lt, CFloat.gt]) rfl (Or.inr rfl)
  have h3 := py_set_duty_cycle_forwards D w ⟨ch, some .nan⟩ key rfl hk
  have h4 := py_set_frequency_forwards D w ⟨ch, some .nan⟩ key rfl hk
  simp only [Option.getD_some] at h1 h2 h3 h4
  exact ⟨⟨by rw [h1], by simp [CFloat.le]⟩, ⟨by rw [h2], by simp [CFloat.gt, CFloat.lt]⟩,
    ⟨by rw [h3], by simp [CFloat.le]⟩, ⟨by rw [h4], by simp [CFloat.le]⟩⟩

/-- Apart from NaN, every value the binding forwards satisfies the invariants:
a duty cycle passed to `softpwm_start` or `softpwm_set_duty_cycle` is a NaN or
lies in `0.0 .. 100.0`, a frequency passed to `softpwm_start` is a NaN or
`> 0.0`, and a frequency passed to `pwm_set_frequency` is a NaN or satisfies
`0.0 < f <= 10000.0`; the infinities are never forwarded as a duty cycle. -/
theorem forwarded_values_in_range_or_nan :
    (∀ (a : Option StartArgs) key d f p,
      Call.softpwm_start key d f p ∈ (py_start_channel D a w).2.calls →
      Call.softpwm_start key d f p ∉ w.calls →
        (d.isNaN = true ∨ (c0.le d = true ∧ d.le c100 = true)) ∧
        (f.isNaN = true ∨ f.gt c0 = true) ∧ (p = 0 ∨ p = 1)) ∧
    (∀ (a : Option DutyArgs) key d,
      Call.softpwm_set_duty_cycle key d ∈ (py_set_duty_cycle D a w).2.calls →
      Call.softpwm_set_duty_cycle key d ∉ w.calls →
        (d.isNaN = true ∨ (c0.le d = true ∧ d.le c100 = true))) ∧
    (∀ (a : Option FreqArgs) key f,
      Call.pwm_set_frequency key f ∈ (py_set_frequency D a w).2.calls →
      Call.pwm_set_frequency key f ∉ w.calls →
        (f.isNaN = true ∨ (f.gt c0 = true ∧ f.le c10000 = true))) := by
  refine ⟨?_, ?_, ?_⟩
  · intro a key d f p hin hnot
    cases a with
    | none => exact absurd hin hnot
    | some a =>
      cases hk : D.get_key a.channel with
      | none =>
        rw [py_start_channel_unresolved D w a hk] at hin
        exact absurd hin hnot
      | some k =>
        by_cases hd : ((a.duty_cycle.getD c0).lt c0 || (a.duty_cycle.getD c0).gt c100) = true
        · rw [py_start_channel_bad_duty D w a k hk hd] at hin
          exact absurd hin hnot
        · have hd' : ((a.duty_cycle.getD c0).lt c0 || (a.duty_cycle.getD c0).gt c100) = false := by
            simpa using hd
          by_cases hf : (a.frequency.getD c2000).le c0 = true
          · rw [py_start_channel_bad_frequency D w a k hk hd' hf] at hin
            exact absurd hin hnot
          · have hf' : (a.frequency.getD c2000).le c0 = false := by simpa using hf
            by_cases hp : a.polarity.getD 0 = 0 ∨ a.polarity.getD 0 = 1
            · rw [py_start_channel_forwards D w a k hk hd' hf' hp] at hin
              simp only [List.mem_append, List.mem_singleton, Call.softpwm_start.injEq] at hin
              rcases hin with hin | ⟨-, rfl, rfl, rfl⟩
              · exact absurd hin hnot
              · exact ⟨(CFloat.range_check_duty _).mp hd',
                  (CFloat.range_check_start_frequency _).mp hf', hp⟩
            · have hp' : a.polarity.getD 0 < 0 ∨ a.polarity.getD 0 > 1 := by omega
              rw [py_start_channel_bad_polarity D w a k hk hd' hf' hp'] at hin
              exact absurd hin hnot
  · intro a key d hin hnot
    cases a with
    | none => exact absurd hin hnot
    | some a =>
      by_cases hd : ((a.duty_cycle.getD c0).lt c0 || (a.duty_cycle.getD c0).gt c100) = true
      · rw [py_set_duty_cycle_bad_duty D w a hd] at hin
        exact absurd hin hnot
      · have hd' : ((a.duty_cycle.getD c0).lt c0 || (a.duty_cycle.getD c0).gt c100) = false := by
          simpa using hd
        cases hk : D.get_key a.channel with
        | none =>
          rw [py_set_duty_cycle_unresolved D w a hd' hk] at hin
          exact absurd hin hnot
        | some k =>
          rw [py_set_duty_cycle_forwards D w a k hd' hk] at hin
          simp only [List.mem_append, List.mem_singleton,
            Call.softpwm_set_duty_cycle.injEq] at hin
          rcases hin with hin | ⟨-, rfl⟩
          · exact absurd hin hnot
          · exact (CFloat.range_check_duty _).mp hd'
  · intro a key f hin hnot
    cases a with
    | none => exact absurd hin hnot
    | some a =>
      by_cases hf : ((a.frequency.getD c1).le c0 || (a.frequency.getD c1).gt c10000) = true
      · rw [py_set_frequency_bad_frequency D w a hf] at hin
        exact absurd hin hnot
      · have hf' : ((a.frequency.getD c1).le c0 || (a.frequency.getD c1).gt c10000) = false := by
          simpa using hf
        cases hk : D.get_key a.channel with
        | none =>
          rw [py_set_frequency_unresolved D w a hf' hk] at hin
          exact absurd hin hnot
        | some k =>
          rw [py_set_frequency_forwards D w a k hf' hk] at hin
          simp only [List.mem_append, List.mem_singleton,
            Call.pwm_set_frequency.injEq] at hin
          rcases hin with hin | ⟨-, rfl⟩
          · exact absurd hin hnot
          · exact (CFloat.range_check_set_frequency _).mp hf'

end NaN

/-! ## Reconfiguration -/

section Reconfigure

variable {σ : Type} (D : Driver σ) (w : World σ)

/-- For a frequency that is not NaN, `py_set_frequency` calls
`pwm_set_frequency` exactly when `0.0 < frequency <= 10000.0` and the name
resolves; a frequency `<= 0.0` or `> 10000.0` raises the range `ValueError`
with no driver call. -/
theorem set_frequency_validates_of_not_nan (ch : String) (f : CFloat)
    (hfn : f.isNaN = false) :
    ((∃ key, D.get_key ch = some key ∧
        (py_set_frequency D (some ⟨ch, some f⟩) w).2.calls =
          w.calls ++ [.pwm_set_frequency key f]) ↔
      (f.gt c0 = true ∧ f.le c10000 = true ∧ ∃ key, D.get_key ch = some key)) ∧
    ((f.le c0 = true ∨ f.gt c10000 = true) →
      py_set_frequency D (some ⟨ch, some f⟩) w = (.raised .ValueError msg_freq_set, w)) := by
  have hF := CFloat.range_check_set_frequency f
  rw [hfn] at hF
  simp only [Bool.false_eq_true, false_or] at hF
  constructor
  · by_cases hf : (f.le c0 || f.gt c10000) = true
    · have h := py_set_frequency_bad_frequency D w ⟨ch, some f⟩ hf
      have hn : ¬ (f.gt c0 = true ∧ f.le c10000 = true) := fun hc => by
        rw [hF.mpr hc] at hf; exact Bool.false_ne_true hf
      constructor
      · rintro ⟨k, -, hc⟩
        rw [h] at hc
        simp at hc
      · rintro ⟨h1, h2, -⟩
        exact absurd ⟨h1, h2⟩ hn
    · have hf' : (f.le c0 || f.gt c10000) = false := by simpa using hf
      cases hk : D.get_key ch with
      | none =>
        have h := py_set_frequency_unresolved D w ⟨ch, some f⟩ hf' hk
        simp [h]
      | some key =>
        have h := py_set_frequency_forwards D w ⟨ch, some f⟩ key hf' hk
        simp only [Option.getD_some] at h
        constructor
        · intro _
          exact ⟨(hF.mp hf').1, (hF.mp hf').2, key, rfl⟩
        · intro _
          exact ⟨key, rfl, by rw [h]⟩
  · intro hor
    apply py_set_frequency_bad_frequency
    simpa using hor

/-- C3: on a resolvable channel and an in-range value, `py_set_duty_cycle`
(resp. `py_set_frequency`) raises the `RuntimeError` "You must start() the PWM
channel first" exactly when `softpwm_set_duty_cycle` (resp.
`pwm_set_frequency`) returns `-1`, returns `None` for every other driver
result, and its only driver call is that reconfiguration call: no
`softpwm_start` is issued. -/
theorem reconfigure_reports_not_started (ch : String) (key : Key) (d f : CFloat)
    (hk : D.get_key ch = some key)
    (hd : c0.le d = true ∧ d.le c100 = true)
    (hf : f.gt c0 = true ∧ f.le c10000 = true) :
    (((py_set_duty_cycle D (some ⟨ch, some d⟩) w).1 =
          .raised .RuntimeError msg_not_started ↔
        (D.softpwm_set_duty_cycle key d w.st).1 = -1) ∧
      ((D.softpwm_set_duty_cycle key d w.st).1 ≠ -1 →
        (py_set_duty_cycle D (some ⟨ch, some d⟩) w).1 = PyResult.none) ∧
      (py_set_duty_cycle D (some ⟨ch, some d⟩) w).2.calls =
        w.calls ++ [.softpwm_set_duty_cycle key d]) ∧
    (((py_set_frequency D (some ⟨ch, some f⟩) w).1 =
          .raised .RuntimeError msg_not_started ↔
        (D.pwm_set_frequency key f w.st).1 = -1) ∧
      ((D.pwm_set_frequency key f w.st).1 ≠ -1 →
        (py_set_frequency D (some ⟨ch, some f⟩) w).1 = PyResult.none) ∧
      (py_set_frequency D (some ⟨ch, some f⟩) w).2.calls =
        w.calls ++ [.pwm_set_frequency key f]) := by
  have hd' := (CFloat.range_check_duty d).mpr (Or.inr hd)
  have hf' := (CFloat.range_check_set_frequency f).mpr (Or.inr hf)
  have h1 := py_set_duty_cycle_forwards D w ⟨ch, some d⟩ key hd' hk
  have h2 := py_set_frequency_forwards D w ⟨ch, some f⟩ key hf' hk
  simp only [Option.getD_some] at h1 h2
  rw [h1, h2]
  refine ⟨⟨?_, ?_, rfl⟩, ⟨?_, ?_, rfl⟩⟩
  · by_cases hr : (D.softpwm_set_duty_cycle key d w.st).1 = -1 <;> simp [hr]
  · intro hr
    simp [hr]
  · by_cases hr : (D.pwm_set_frequency key f w.st).1 = -1 <;> simp [hr]
  · intro hr
    simp [hr]

/-- C10: the value argument of the reconfiguration entry points is optional.
On a resolvable channel, `set_duty_cycle(ch)` passes validation and forwards
`0.0` to `softpwm_set_duty_cycle`, and `set_frequency(ch)` passes validation
and forwards `1.0` to `pwm_set_frequency`; the result is the `RuntimeError` of
a channel that is not started when the driver returns `-1`, and `None`
otherwise. -/
theorem reconfigure_value_optional (ch : String) (key : Key)
    (hk : D.get_key ch = some key) :
    py_set_duty_cycle D (some ⟨ch, Option.none⟩) w =
      (if (D.softpwm_set_duty_cycle key c0 w.st).1 = -1
        then PyResult.raised .RuntimeError msg_not_started else PyResult.none,
       ⟨(D.softpwm_set_duty_cycle key c0 w.st).2,
        w.calls ++ [.softpwm_set_duty_cycle key c0]⟩) ∧
    py_set_frequency D (some ⟨ch, Option.none⟩) w =
      (if (D.pwm_set_frequency key c1 w.st).1 = -1
        then PyResult.raised .RuntimeError msg_not_started else PyResult.none,
       ⟨(D.pwm_set_frequency key c1 w.st).2,
        w.calls ++ [.pwm_set_frequency key c1]⟩) ∧
    (∀ msg, (py_set_duty_cycle D (some ⟨ch, Option.none⟩) w).1 ≠ .raised .ValueError msg) ∧
    (∀ msg, (py_set_frequency D (some ⟨ch, Option.none⟩) w).1 ≠ .raised .ValueError msg) := by
  have h1 := py_set_duty_cycle_forwards D w ⟨ch, Option.none⟩ key
    (by simp [c0, c100, CFloat.lt, CFloat.gt]) hk
  have h2 := py_set_frequency_forwards D w ⟨ch, Option.none⟩ key
    (by simp [c0, c1, c10000, CFloat.lt, CFloat.le, CFloat.gt]) hk
  simp only [Option.getD_none] at h1 h2
  refine ⟨h1, h2, ?_, ?_⟩
  · intro msg
    rw [h1]
    by_cases hr : (D.softpwm_set_duty_cycle key c0 w.st).1 = -1 <;> simp [hr]
  · intro msg
    rw [h2]
    by_cases hr : (D.pwm_set_frequency key c1 w.st).1 = -1 <;> simp [hr]

end Reconfigure

/-! ## Stop and cleanup -/

section StopCleanup

variable {σ : Type} (D : Driver σ) (w : World σ)

/-- C4, as stated, fails: `stop` on a name that `get_key` does not resolve
raises the `ValueError` "Invalid PWM key or name." instead of returning
`None`. -/
theorem stop_unresolved_name_raises :
    refDriver.get_key "LCD-D99" = Option.none ∧
    py_stop_channel refDriver (some "LCD-D99") w0 = (.raised .ValueError msg_key, w0) ∧
    (py_stop_channel refDriver (some "LCD-D99") w0).1 ≠ PyResult.none := by
  have hk : refDriver.get_key "LCD-D99" = Option.none := by decide
  have h : py_stop_channel refDriver (some "LCD-D99") w0 = (.raised .ValueError msg_key, w0) := by
    simp [py_stop_channel, hk]
  exact ⟨hk, h, by rw [h]; simp⟩

/-- C4, amended: `py_stop_channel` returns `None` exactly for the names that
`get_key` resolves, and then in every driver state (the driver's
`softpwm_disable` is called once and its result is ignored, so a channel that
was never started is no error); for a name that does not resolve it raises
the `ValueError` "Invalid PWM key or name." and calls nothing.  `py_cleanup`
returns `None` for every argument and every driver state, after one call of
`softpwm_cleanup`. -/
theorem stop_and_cleanup_results (ch : String) :
    ((py_stop_channel D (some ch) w).1 = PyResult.none ↔ ∃ key, D.get_key ch = some key) ∧
    (∀ key, D.get_key ch = some key →
      py_stop_channel D (some ch) w =
        (.none, ⟨D.softpwm_disable key w.st, w.calls ++ [.softpwm_disable key]⟩)) ∧
    (D.get_key ch = Option.none →
      py_stop_channel D (some ch) w = (.raised .ValueError msg_key, w)) ∧
    (∀ (α : Type) (args : α),
      py_cleanup D args w =
        (.none, ⟨D.softpwm_cleanup w.st, w.calls ++ [.softpwm_cleanup]⟩)) := by
  refine ⟨?_, ?_, ?_, fun _ _ => rfl⟩
  · cases hk : D.get_key ch <;> simp [py_stop_channel, hk]
  · intro key hk
    simp [py_stop_channel, hk]
  · intro hk
    simp [py_stop_channel, hk]

end StopCleanup

/-! ## Frequency bounds and defaults of start -/

section StartFrequency

variable {σ : Type} (D : Driver σ) (w : World σ)

/-- C6: the frequency bounds of start and set_frequency are asymmetric.  On a
resolvable channel, with a duty cycle in range and a polarity of 0 or 1:
every frequency that `py_set_frequency` forwards to the driver is also
forwarded by `py_start_channel`; every frequency `> 0.0` is forwarded by
`py_start_channel`, so start has no upper bound; and every frequency
`> 10000.0` is forwarded by `py_start_channel` but rejected by
`py_set_frequency` with the range `ValueError` and no driver call. -/
theorem frequency_bounds_asymmetric (ch : String) (key : Key) (d f : CFloat) (p : Int)
    (hk : D.get_key ch = some key)
    (hd : c0.le d = true ∧ d.le c100 = true) (hp : p = 0 ∨ p = 1) :
    ((py_set_frequency D (some ⟨ch, some f⟩) w).2.calls =
        w.calls ++ [.pwm_set_frequency key f] →
      (py_start_channel D (some ⟨ch, some d, some f, some p⟩) w).2.calls =
        w.calls ++ [.softpwm_start key d f p]) ∧
    (f.gt c0 = true →
      (py_start_channel D (some ⟨ch, some d, some f, some p⟩) w).2.calls =
        w.calls ++ [.softpwm_start key d f p]) ∧
    (f.gt c10000 = true →
      (py_start_channel D (some ⟨ch, some d, some f, some p⟩) w).2.calls =
        w.calls ++ [.softpwm_start key d f p] ∧
      py_set_frequency D (some ⟨ch, some f⟩) w = (.raised .ValueError msg_freq_set, w)) := by
  have hd' := (CFloat.range_check_duty d).mpr (Or.inr hd)
  have hstart : f.le c0 = false →
      (py_start_channel D (some ⟨ch, some d, some f, some p⟩) w).2.calls =
        w.calls ++ [.softpwm_start key d f p] := by
    intro hf
    rw [py_start_channel_forwards D w ⟨ch, some d, some f, some p⟩ key hk hd' hf hp]
    rfl
  refine ⟨?_, ?_, ?_⟩
  · intro hc
    apply hstart
    by_cases hf : (f.le c0 || f.gt c10000) = true
    · rw [py_set_frequency_bad_frequency D w ⟨ch, some f⟩ hf] at hc
      simp at hc
    · have hf' : (f.le c0 || f.gt c10000) = false := by simpa using hf
      rw [Bool.or_eq_false_iff] at hf'
      exact hf'.1
  · intro hf
    exact hstart ((CFloat.range_check_start_frequency f).mpr (Or.inr hf))
  · intro hf
    have hpos : f.le c0 = false := by
      cases f <;> simp_all [CFloat.lt, CFloat.le, CFloat.gt, c0, c10000]
      linarith
    refine ⟨hstart hpos, ?_⟩
    apply py_set_frequency_bad_frequency
    simp [hf]

/-- C7: `start(ch)` with the three optional arguments omitted passes every
range check on a resolvable name and calls `softpwm_start` with exactly
`(key, 0.0, 2000.0, 0)`; and for every name, omitting an optional argument
gives the same result and the same world as passing its default. -/
theorem start_defaults (ch : String) (key : Key) (hk : D.get_key ch = some key) :
    py_start_channel D (some ⟨ch, Option.none, Option.none, Option.none⟩) w =
      (if (D.softpwm_start key c0 c2000 0 w.st).1 = 0 then PyResult.null else PyResult.none,
       ⟨(D.softpwm_start key c0 c2000 0 w.st).2,
        w.calls ++ [.softpwm_start key c0 c2000 0]⟩) ∧
    (∀ (name : String) (od ofr : Option CFloat) (op : Option Int),
      py_start_channel D (some ⟨name, od, ofr, op⟩) w =
        py_start_channel D
          (some ⟨name, some (od.getD c0), some (ofr.getD c2000), some (op.getD 0)⟩) w) := by
  constructor
  · have h := py_start_channel_forwards D w ⟨ch, Option.none, Option.none, Option.none⟩ key hk
      (by simp [c0, c100, CFloat.lt, CFloat.gt])
      (by simp [c0, c2000, CFloat.le]) (Or.inl rfl)
    simpa only [Option.getD_none] using h
  · intro name od ofr op
    rfl

end StartFrequency

/-! ## Error reporting -/

section Errors

variable {σ : Type} (D : Driver σ) (w : World σ)

/-- Within each operation the errors of different checks are different
(exception, message) pairs. -/
theorem error_pairs_distinct :
    start_errors.Nodup ∧ stop_errors.Nodup ∧ set_duty_cycle_errors.Nodup ∧
      set_frequency_errors.Nodup := by
  refine ⟨?_, ?_, ?_, ?_⟩ <;> decide

/-- Every error an entry point raises itself is one of the listed pairs. -/
theorem raised_errors_listed :
    (∀ a e msg, (py_start_channel D a w).1 = .raised e msg → (e, msg) ∈ start_errors) ∧
    (∀ a e msg, (py_stop_channel D a w).1 = .raised e msg → (e, msg) ∈ stop_errors) ∧
    (∀ a e msg, (py_set_duty_cycle D a w).1 = .raised e msg →
      (e, msg) ∈ set_duty_cycle_errors) ∧
    (∀ a e msg, (py_set_frequency D a w).1 = .raised e msg →
      (e, msg) ∈ set_frequency_errors) := by
  refine ⟨?_, ?_, ?_, ?_⟩
  · intro a e msg h
    cases a with
    | none => simp [py_start_channel] at h
    | some a =>
      simp only [py_start_channel] at h
      split at h
      · simp only [PyResult.raised.injEq] at h
        simp [start_errors, ← h.1, ← h.2]
      · split at h
        · simp only [PyResult.raised.injEq] at h
          simp [start_errors, ← h.1, ← h.2]
        · split at h
          · simp only [PyResult.raised.injEq] at h
            simp [start_errors, ← h.1, ← h.2]
          · split at h
            · simp only [PyResult.raised.injEq] at h
              simp [start_errors, ← h.1, ← h.2]
            · split at h <;> simp at h
  · intro a e msg h
    cases a with
    | none => simp [py_stop_channel] at h
    | some a =>
      simp only [py_stop_channel] at h
      split at h
      · simp only [PyResult.raised.injEq] at h
        simp [stop_errors, ← h.1, ← h.2]
      · simp at h
  · intro a e msg h
    cases a with
    | none => simp [py_set_duty_cycle] at h
    | some a =>
      simp only [py_set_duty_cycle] at h
      split at h
      · simp only [PyResult.raised.injEq] at h
        simp [set_duty_cycle_errors, ← h.1, ← h.2]
      · split at h
        · simp only [PyResult.raised.injEq] at h
          simp [set_duty_cycle_errors, ← h.1, ← h.2]
        · split at h
          · simp only [PyResult.raised.injEq] at h
            simp [set_duty_cycle_errors, ← h.1, ← h.2]
          · simp at h
  · intro a e msg h
    cases a with
    | none => simp [py_set_frequency] at h
    | some a =>
      simp only [py_set_frequency] at h
      split at h
      · simp only [PyResult.raised.injEq] at h
        simp [set_frequency_errors, ← h.1, ← h.2]
      · split at h
        · simp only [PyResult.raised.injEq] at h
          simp [set_frequency_errors, ← h.1, ← h.2]
        · split at h
          · simp only [PyResult.raised.injEq] at h
            simp [set_frequency_errors, ← h.1, ← h.2]
          · simp at h

/-- The ranges the messages state against the values the checks accept, NaN
apart: the duty-cycle check accepts exactly `0.0 .. 100.0`, the frequency check
of start accepts exactly the values `> 0.0`, and the frequency check of
set_frequency accepts the stated values and, beyond them, `10000.0`. -/
theorem stated_ranges_of_not_nan (x : CFloat) (hx : x.isNaN = false) :
    ((x.lt c0 || x.gt c100) = false ↔ stated_duty_range x = true) ∧
    (x.le c0 = false ↔ stated_start_frequency_range x = true) ∧
    ((x.le c0 || x.gt c10000) = false ↔
      (stated_set_frequency_range x = true ∨ x = c10000)) := by
  cases x with
  | nan => simp [CFloat.isNaN] at hx
  | ninf =>
    simp [CFloat.lt, CFloat.le, CFloat.gt, c0, c100, c10000, stated_duty_range,
      stated_start_frequency_range, stated_set_frequency_range]
  | pinf =>
    simp [CFloat.lt, CFloat.le, CFloat.gt, c0, c100, c10000, stated_duty_range,
      stated_start_frequency_range, stated_set_frequency_range]
  | fin q =>
    simp only [CFloat.lt, CFloat.le, CFloat.gt, c0, c100, c10000, stated_duty_range,
      stated_start_frequency_range, stated_set_frequency_range, Bool.or_eq_false_iff,
      decide_eq_false_iff_not, decide_eq_true_eq, Bool.and_eq_true, not_lt, not_le,
      CFloat.fin.injEq]
    refine ⟨trivial, trivial, ?_⟩
    constructor
    · rintro ⟨h1, h2⟩
      rcases lt_or_eq_of_le h2 with h | h
      · exact Or.inl ⟨h1, h⟩
      · exact Or.inr h
    · rintro (⟨h1, h2⟩ | h)
      · exact ⟨h1, le_of_lt h2⟩
      · subst h
        norm_num

/-- C8, on the code: the range in the message of `py_set_frequency`,
"frequency must be greater than 0.0 and less than 10000.0", is not the set of
values its check accepts.  On a resolvable name `set_frequency(ch, 10000.0)`
passes the check and reaches `pwm_set_frequency`, although `10000.0` is not
less than `10000.0`. -/
theorem set_frequency_message_excludes_accepted_value (ch : String) (key : Key)
    (hk : D.get_key ch = some key) :
    (py_set_frequency D (some ⟨ch, some c10000⟩) w).2.calls =
        w.calls ++ [.pwm_set_frequency key c10000] ∧
      (py_set_frequency D (some ⟨ch, some c10000⟩) w).1 ≠
        .raised .ValueError msg_freq_set ∧
      stated_set_frequency_range c10000 = false := by
  have h := py_set_frequency_forwards D w ⟨ch, some c10000⟩ key
    (by simp [c0, c10000, CFloat.lt, CFloat.le, CFloat.gt]) hk
  simp only [Option.getD_some] at h
  refine ⟨by rw [h], ?_, by simp [stated_set_frequency_range, c0, c10000, CFloat.lt, CFloat.gt]⟩
  rw [h]
  by_cases hr : (D.pwm_set_frequency key c10000 w.st).1 = -1 <;> simp [hr]

/-- The order of the checks, for values below or above the bounds.
`py_start_channel` checks the name, then the duty cycle, then the frequency,
then the polarity: on a name that does not resolve it raises "Invalid PWM key
or name." whatever the other arguments are, on a resolvable name a duty cycle
below `0.0` or above `100.0` gives the duty-cycle error whatever the frequency
and polarity are, and a frequency `<= 0.0` after a passing duty cycle gives the
frequency error whatever the polarity is.  `py_set_duty_cycle` and
`py_set_frequency` check the value first: a value below the lower or above the
upper bound gives the range error for every name, resolvable or not.  So with
a name that does not resolve and a duty cycle of `101`, start and
set_duty_cycle raise different errors. -/
theorem error_precedence (bad good : String) (key : Key)
    (hbad : D.get_key bad = Option.none) (hgood : D.get_key good = some key) :
    (∀ od ofr op,
      py_start_channel D (some ⟨bad, od, ofr, op⟩) w = (.raised .ValueError msg_key, w)) ∧
    (∀ d ofr op, (d.lt c0 = true ∨ d.gt c100 = true) →
      py_start_channel D (some ⟨good, some d, ofr, op⟩) w =
        (.raised .ValueError msg_duty, w)) ∧
    (∀ d f op, (d.lt c0 || d.gt c100) = false → f.le c0 = true →
      py_start_channel D (some ⟨good, some d, some f, op⟩) w =
        (.raised .ValueError msg_freq_start, w)) ∧
    (∀ name d, (d.lt c0 = true ∨ d.gt c100 = true) →
      py_set_duty_cycle D (some ⟨name, some d⟩) w = (.raised .ValueError msg_duty, w)) ∧
    (∀ name f, (f.le c0 = true ∨ f.gt c10000 = true) →
      py_set_frequency D (some ⟨name, some f⟩) w = (.raised .ValueError msg_freq_set, w)) ∧
    (py_start_channel D (some ⟨bad, some (.fin 101), Option.none, Option.none⟩) w).1 =
      .raised .ValueError msg_key ∧
    (py_set_duty_cycle D (some ⟨bad, some (.fin 101)⟩) w).1 =
      .raised .ValueError msg_duty ∧
    (py_start_channel D (some ⟨bad, some (.fin 101), Option.none, Option.none⟩) w).1 ≠
      (py_set_duty_cycle D (some ⟨bad, some (.fin 101)⟩) w).1 := by
  have hs : ∀ od ofr op,
      py_start_channel D (some ⟨bad, od, ofr, op⟩) w = (.raised .ValueError msg_key, w) :=
    fun od ofr op => py_start_channel_unresolved D w ⟨bad, od, ofr, op⟩ hbad
  have hdc : ∀ name d, (d.lt c0 = true ∨ d.gt c100 = true) →
      py_set_duty_cycle D (some ⟨name, some d⟩) w = (.raised .ValueError msg_duty, w) := by
    intro name d hd
    apply py_set_duty_cycle_bad_duty
    simpa using hd
  have h101 : (CFloat.fin 101).lt c0 = true ∨ (CFloat.fin 101).gt c100 = true := by
    right
    simp only [CFloat.gt, CFloat.lt, c100, decide_eq_true_eq]
    norm_num
  refine ⟨hs, ?_, ?_, hdc, ?_, by rw [hs], by rw [hdc bad _ h101], ?_⟩
  · intro d ofr op hd
    apply py_start_channel_bad_duty D w ⟨good, some d, ofr, op⟩ key hgood
    simpa using hd
  · intro d f op hd hf
    exact py_start_channel_bad_frequency D w ⟨good, some d, some f, op⟩ key hgood hd hf
  · intro name f hf
    apply py_set_frequency_bad_frequency
    simpa using hf
  · rw [hs, hdc bad _ h101]
    simp [msg_key, msg_duty]

/-- C9, on the code: a value outside the range does not always get the range
error from the reconfiguration entry points.  With a name that does not
resolve, `set_duty_cycle(name, nan)` raises "Invalid PWM key or name." and not
the duty-cycle error, although `0.0 <= nan <= 100.0` is false, and
`set_frequency(name, nan)` raises "Invalid PWM key or name." and not the
frequency error, although `0.0 < nan <= 10000.0` is false: the NaN passes the
range check, so the name check that follows it reports first. -/
theorem reconfigure_nan_reports_name_error (bad : String)
    (hbad : D.get_key bad = Option.none) :
    (py_set_duty_cycle D (some ⟨bad, some .nan⟩) w = (.raised .ValueError msg_key, w) ∧
      (py_set_duty_cycle D (some ⟨bad, some .nan⟩) w).1 ≠ .raised .ValueError msg_duty ∧
      ¬ (c0.le .nan = true ∧ CFloat.le .nan c100 = true)) ∧
    (py_set_frequency D (some ⟨bad, some .nan⟩) w = (.raised .ValueError msg_key, w) ∧
      (py_set_frequency D (some ⟨bad, some .nan⟩) w).1 ≠ .raised .ValueError msg_freq_set ∧
      ¬ (CFloat.gt .nan c0 = true ∧ CFloat.le .nan c10000 = true)) := by
  have h1 := py_set_duty_cycle_unresolved D w ⟨bad, some .nan⟩ rfl hbad
  have h2 := py_set_frequency_unresolved D w ⟨bad, some .nan⟩ rfl hbad
  refine ⟨⟨h1, ?_, by simp [CFloat.le]⟩, ⟨h2, ?_, by simp [CFloat.le]⟩⟩
  · rw [h1]
    simp [msg_key, msg_duty]
  · rw [h2]
    simp [msg_key, msg_freq_set]

end Errors

/-! ## The theorems on concrete calls

The calls below run on `refDriver` from the world `w0`, in which no channel has
been started. -/

section Concrete

/-- The values named for start: a duty cycle of `-1` or `101`, a frequency of
`0` or `-5` and a polarity of `2` are rejected with a `ValueError` and no
driver call; the duty cycles `0.0` and `100.0` are accepted. -/
theorem start_named_values :
    py_start_channel refDriver (some ⟨"XIO-P0", some (.fin (-1)), Option.none, Option.none⟩) w0 =
      (.raised .ValueError msg_duty, w0) ∧
    py_start_channel refDriver (some ⟨"XIO-P0", some (.fin 101), Option.none, Option.none⟩) w0 =
      (.raised .ValueError msg_duty, w0) ∧
    py_start_channel refDriver (some ⟨"XIO-P0", Option.none, some (.fin 0), Option.none⟩) w0 =
      (.raised .ValueError msg_freq_start, w0) ∧
    py_start_channel refDriver (some ⟨"XIO-P0", Option.none, some (.fin (-5)), Option.none⟩) w0 =
      (.raised .ValueError msg_freq_start, w0) ∧
    py_start_channel refDriver (some ⟨"XIO-P0", Option.none, Option.none, some 2⟩) w0 =
      (.raised .ValueError msg_polarity, w0) ∧
    py_start_channel refDriver (some ⟨"XIO-P0", some (.fin 0), Option.none, Option.none⟩) w0 =
      (.none, ⟨["XIO-P0"], [.softpwm_start "XIO-P0" (.fin 0) c2000 0]⟩) ∧
    py_start_channel refDriver (some ⟨"XIO-P0", some (.fin 100), Option.none, Option.none⟩) w0 =
      (.none, ⟨["XIO-P0"], [.softpwm_start "XIO-P0" (.fin 100) c2000 0]⟩) := by
  have hk : refDriver.get_key "XIO-P0" = some "XIO-P0" := by decide
  refine ⟨?_, ?_, ?_, ?_, ?_, ?_, ?_⟩
  · exact py_start_channel_bad_duty refDriver w0 _ _ hk
      (by norm_num [c0, c100, CFloat.lt, CFloat.gt])
  · exact py_start_channel_bad_duty refDriver w0 _ _ hk
      (by norm_num [c0, c100, CFloat.lt, CFloat.gt])
  · exact py_start_channel_bad_frequency refDriver w0 _ _ hk
      (by norm_num [c0, c100, CFloat.lt, CFloat.gt]) (by norm_num [c0, CFloat.le])
  · exact py_start_channel_bad_frequency refDriver w0 _ _ hk
      (by norm_num [c0, c100, CFloat.lt, CFloat.gt]) (by norm_num [c0, CFloat.le])
  · exact py_start_channel_bad_polarity refDriver w0 _ _ hk
      (by norm_num [c0, c100, CFloat.lt, CFloat.gt]) (by norm_num [c0, c2000, CFloat.le])
      (Or.inr (by decide))
  · rw [py_start_channel_forwards refDriver w0
      ⟨"XIO-P0", some (.fin 0), Option.none, Option.none⟩ "XIO-P0" hk
      (by norm_num [c0, c100, CFloat.lt, CFloat.gt]) (by norm_num [c0, c2000, CFloat.le])
      (Or.inl rfl)]
    rfl
  · rw [py_start_channel_forwards refDriver w0
      ⟨"XIO-P0", some (.fin 100), Option.none, Option.none⟩ "XIO-P0" hk
      (by norm_num [c0, c100, CFloat.lt, CFloat.gt]) (by norm_num [c0, c2000, CFloat.le])
      (Or.inl rfl)]
    rfl

/-- The values named for set_frequency: `0`, `-5` and `10000.01` (as a `float`,
`10000.009765625`) are rejected with the range `ValueError` and no driver
call; `10000.0` passes the range check and reaches the driver. -/
theorem set_frequency_named_values :
    py_set_frequency refDriver (some ⟨"XIO-P0", some (.fin 0)⟩) w0 =
      (.raised .ValueError msg_freq_set, w0) ∧
    py_set_frequency refDriver (some ⟨"XIO-P0", some (.fin (-5))⟩) w0 =
      (.raised .ValueError msg_freq_set, w0) ∧
    py_set_frequency refDriver (some ⟨"XIO-P0", some (.fin (10000 + 5 / 512))⟩) w0 =
      (.raised .ValueError msg_freq_set, w0) ∧
    py_set_frequency refDriver (some ⟨"XIO-P0", some (.fin 10000)⟩) w0 =
      (.raised .RuntimeError msg_not_started,
        ⟨[], [.pwm_set_frequency "XIO-P0" (.fin 10000)]⟩) := by
  have hk : refDriver.get_key "XIO-P0" = some "XIO-P0" := by decide
  refine ⟨?_, ?_, ?_, ?_⟩
  · exact py_set_frequency_bad_frequency refDriver w0 _
      (by norm_num [c0, c10000, CFloat.le, CFloat.lt, CFloat.gt])
  · exact py_set_frequency_bad_frequency refDriver w0 _
      (by norm_num [c0, c10000, CFloat.le, CFloat.lt, CFloat.gt])
  · exact py_set_frequency_bad_frequency refDriver w0 _
      (by norm_num [c0, c10000, CFloat.le, CFloat.lt, CFloat.gt])
  · rw [py_set_frequency_forwards refDriver w0 _ _
      (by norm_num [c0, c10000, CFloat.le, CFloat.lt, CFloat.gt]) hk]
    rfl

/-- C1 on a concrete call: `start("XIO-P0", nan)` reaches `softpwm_start`. -/
theorem start_nan_reaches_driver_witness :
    refDriver.get_key "XIO-P0" = some "XIO-P0" ∧
    (py_start_channel refDriver (some ⟨"XIO-P0", some .nan, Option.none, Option.none⟩) w0).2.calls =
      [.softpwm_start "XIO-P0" .nan c2000 0] ∧
    (py_start_channel refDriver (some ⟨"XIO-P0", some c0, some .nan, Option.none⟩) w0).2.calls =
      [.softpwm_start "XIO-P0" c0 .nan 0] :=
  ⟨by decide,
    (start_nan_reaches_driver refDriver w0 "XIO-P0" "XIO-P0" (by decide)).1.1,
    (start_nan_reaches_driver refDriver w0 "XIO-P0" "XIO-P0" (by decide)).2.1⟩

/-- C2 on a concrete call: `set_frequency("XIO-P0", nan)` reaches
`pwm_set_frequency`. -/
theorem set_frequency_nan_reaches_driver_witness :
    refDriver.get_key "XIO-P0" = some "XIO-P0" ∧
    (py_set_frequency refDriver (some ⟨"XIO-P0", some .nan⟩) w0).2.calls =
      [.pwm_set_frequency "XIO-P0" .nan] :=
  ⟨by decide,
    (set_frequency_nan_reaches_driver refDriver w0 "XIO-P0" "XIO-P0" (by decide)).1⟩

/-- C3 on concrete calls: before any start, `set_duty_cycle("U14_13", 50.0)` and
`set_frequency("U14_13", 440.0)` raise the `RuntimeError`, and the only driver
call of each is the reconfiguration call. -/
theorem reconfigure_reports_not_started_witness :
    refDriver.get_key "U14_13" = some "XIO-P0" ∧
    (c0.le (.fin 50) = true ∧ (CFloat.fin 50).le c100 = true) ∧
    ((CFloat.fin 440).gt c0 = true ∧ (CFloat.fin 440).le c10000 = true) ∧
    (py_set_duty_cycle refDriver (some ⟨"U14_13", some (.fin 50)⟩) w0).1 =
      .raised .RuntimeError msg_not_started ∧
    (py_set_duty_cycle refDriver (some ⟨"U14_13", some (.fin 50)⟩) w0).2.calls =
      [.softpwm_set_duty_cycle "XIO-P0" (.fin 50)] ∧
    (py_set_frequency refDriver (some ⟨"U14_13", some (.fin 440)⟩) w0).1 =
      .raised .RuntimeError msg_not_started ∧
    (py_set_frequency refDriver (some ⟨"U14_13", some (.fin 440)⟩) w0).2.calls =
      [.pwm_set_frequency "XIO-P0" (.fin 440)] := by
  have hk : refDriver.get_key "U14_13" = some "XIO-P0" := by decide
  have hd : c0.le (.fin 50) = true ∧ (CFloat.fin 50).le c100 = true := by
    norm_num [c0, c100, CFloat.le]
  have hf : (CFloat.fin 440).gt c0 = true ∧ (CFloat.fin 440).le c10000 = true := by
    norm_num [c0, c10000, CFloat.le, CFloat.lt, CFloat.gt]
  have h := reconfigure_reports_not_started refDriver w0 "U14_13" "XIO-P0" (.fin 50) (.fin 440)
    hk hd hf
  exact ⟨hk, hd, hf, h.1.1.mpr (by decide), h.1.2.2, h.2.1.mpr (by decide), h.2.2.2⟩

/-- C4 (amended) on concrete calls: before any start, `stop("XIO-P0")` returns
`None`, and so does `cleanup()`. -/
theorem stop_and_cleanup_results_witness :
    refDriver.get_key "XIO-P0" = some "XIO-P0" ∧
    py_stop_channel refDriver (some "XIO-P0") w0 =
      (.none, ⟨[], [.softpwm_disable "XIO-P0"]⟩) ∧
    py_cleanup refDriver () w0 = (.none, ⟨[], [.softpwm_cleanup]⟩) :=
  ⟨by decide,
    (stop_and_cleanup_results refDriver w0 "XIO-P0").2.1 "XIO-P0" (by decide),
    (stop_and_cleanup_results refDriver w0 "XIO-P0").2.2.2 Unit ()⟩

/-- C5 on concrete calls: the NaN reaches each of the three driver
functions. -/
theorem forwarded_nan_breaks_invariants_witness :
    refDriver.get_key "XIO-P0" = some "XIO-P0" ∧
    (py_start_channel refDriver (some ⟨"XIO-P0", some .nan, some c2000, some 0⟩) w0).2.calls =
      [.softpwm_start "XIO-P0" .nan c2000 0] ∧
    (py_start_channel refDriver (some ⟨"XIO-P0", some c100, some .nan, some 1⟩) w0).2.calls =
      [.softpwm_start "XIO-P0" c100 .nan 1] ∧
    (py_set_duty_cycle refDriver (some ⟨"XIO-P0", some .nan⟩) w0).2.calls =
      [.softpwm_set_duty_cycle "XIO-P0" .nan] ∧
    (py_set_frequency refDriver (some ⟨"XIO-P0", some .nan⟩) w0).2.calls =
      [.pwm_set_frequency "XIO-P0" .nan] := by
  have h := forwarded_nan_breaks_invariants refDriver w0 "XIO-P0" "XIO-P0" (by decide)
  exact ⟨by decide, h.1.1, h.2.1.1, h.2.2.1.1, h.2.2.2.1⟩

/-- C6 on concrete calls: `start("XIO-P0", 50.0, 20000.0, 0)` reaches the
driver, `set_frequency("XIO-P0", 20000.0)` is rejected. -/
theorem frequency_bounds_asymmetric_witness :
    refDriver.get_key "XIO-P0" = some "XIO-P0" ∧
    (c0.le (.fin 50) = true ∧ (CFloat.fin 50).le c100 = true) ∧
    ((0 : Int) = 0 ∨ (0 : Int) = 1) ∧
    (CFloat.fin 20000).gt c10000 = true ∧
    (py_start_channel refDriver (some ⟨"XIO-P0", some (.fin 50), some (.fin 20000), some 0⟩)
        w0).2.calls = [.softpwm_start "XIO-P0" (.fin 50) (.fin 20000) 0] ∧
    py_set_frequency refDriver (some ⟨"XIO-P0", some (.fin 20000)⟩) w0 =
      (.raised .ValueError msg_freq_set, w0) := by
  have hk : refDriver.get_key "XIO-P0" = some "XIO-P0" := by decide
  have hd : c0.le (.fin 50) = true ∧ (CFloat.fin 50).le c100 = true := by
    norm_num [c0, c100, CFloat.le]
  have hf : (CFloat.fin 20000).gt c10000 = true := by
    norm_num [c10000, CFloat.lt, CFloat.gt]
  have h := frequency_bounds_asymmetric refDriver w0 "XIO-P0" "XIO-P0" (.fin 50) (.fin 20000) 0
    hk hd (Or.inl rfl)
  exact ⟨hk, hd, Or.inl rfl, hf, (h.2.2 hf).1, (h.2.2 hf).2⟩

/-- C7 on a concrete call: `start("XIO-P0")` calls
`softpwm_start("XIO-P0", 0.0, 2000.0, 0)` and returns `None`. -/
theorem start_defaults_witness :
    refDriver.get_key "XIO-P0" = some "XIO-P0" ∧
    py_start_channel refDriver (some ⟨"XIO-P0", Option.none, Option.none, Option.none⟩) w0 =
      (.none, ⟨["XIO-P0"], [.softpwm_start "XIO-P0" c0 c2000 0]⟩) :=
  ⟨by decide, (start_defaults refDriver w0 "XIO-P0" "XIO-P0" (by decide)).1⟩

/-- C8 on a concrete call: `set_frequency("XIO-P0", 10000.0)` passes the range
check and reaches the driver. -/
theorem set_frequency_message_excludes_accepted_value_witness :
    refDriver.get_key "XIO-P0" = some "XIO-P0" ∧
    (py_set_frequency refDriver (some ⟨"XIO-P0", some c10000⟩) w0).2.calls =
      [.pwm_set_frequency "XIO-P0" c10000] ∧
    stated_set_frequency_range c10000 = false := by
  have h := set_frequency_message_excludes_accepted_value refDriver w0 "XIO-P0" "XIO-P0"
    (by decide)
  exact ⟨by decide, h.1, h.2.2⟩

/-- The order of the checks on concrete calls: with the name "LCD-D99", which
does not resolve, and a duty cycle of `101`, start reports the name and
set_duty_cycle reports the range. -/
theorem error_precedence_witness :
    refDriver.get_key "LCD-D99" = Option.none ∧
    refDriver.get_key "XIO-P0" = some "XIO-P0" ∧
    py_start_channel refDriver (some ⟨"LCD-D99", some (.fin 101), Option.none, Option.none⟩) w0 =
      (.raised .ValueError msg_key, w0) ∧
    (py_set_duty_cycle refDriver (some ⟨"LCD-D99", some (.fin 101)⟩) w0).1 =
      .raised .ValueError msg_duty := by
  have h := error_precedence refDriver w0 "LCD-D99" "XIO-P0" "XIO-P0" (by decide) (by decide)
  exact ⟨by decide, by decide, h.1 _ _ _, h.2.2.2.2.2.2.1⟩

/-- C10 on concrete calls: before any start, `set_duty_cycle("XIO-P0")`
forwards `0.0` and `set_frequency("XIO-P0")` forwards `1.0`. -/
theorem reconfigure_value_optional_witness :
    refDriver.get_key "XIO-P0" = some "XIO-P0" ∧
    py_set_duty_cycle refDriver (some ⟨"XIO-P0", Option.none⟩) w0 =
      (.raised .RuntimeError msg_not_started,
        ⟨[], [.softpwm_set_duty_cycle "XIO-P0" c0]⟩) ∧
    py_set_frequency refDriver (some ⟨"XIO-P0", Option.none⟩) w0 =
      (.raised .RuntimeError msg_not_started,
        ⟨[], [.pwm_set_frequency "XIO-P0" c1]⟩) := by
  have h := reconfigure_value_optional refDriver w0 "XIO-P0" "XIO-P0" (by decide)
  exact ⟨by decide, h.1, h.2.1⟩

/-- C9 on concrete calls: with the name "LCD-D99", which does not resolve,
`set_duty_cycle("LCD-D99", nan)` and `set_frequency("LCD-D99", nan)` report the
name and not the range. -/
theorem reconfigure_nan_reports_name_error_witness :
    refDriver.get_key "LCD-D99" = Option.none ∧
    py_set_duty_cycle refDriver (some ⟨"LCD-D99", some .nan⟩) w0 =
      (.raised .ValueError msg_key, w0) ∧
    py_set_frequency refDriver (some ⟨"LCD-D99", some .nan⟩) w0 =
      (.raised .ValueError msg_key, w0) := by
  have h := reconfigure_nan_reports_name_error refDriver w0 "LCD-D99" (by decide)
  exact ⟨by decide, h.1.1, h.2.1⟩

end Concrete

end SoftPwm
